import Mathlib

/-!
# Verification of the `PaginatedScraper` crawler (`src/buck.py`)

Shallow embedding of the traversal and persistence logic of the
`PaginatedScraper` class.  HTML pages fetched from the network are modelled
abstractly: a profile page is reduced to the exact pieces of structure that
`scrape_profile` inspects (the `bio-top-left` header container and its `h1`,
the `bio-exp` expertise container with its `ul` texts, the list of
`bio-btm-left` divs with their `p` texts, and the outcome of each of the six
alternative CSS selectors), and a directory page is reduced to the `href`
attributes of its anchors together with the output of
`find_pagination_links`.  Python exceptions that the source catches are
modelled by the `absent`/`none` results the handlers produce; machinery the
source imports from third-party libraries (`urljoin`, the HTTP session, the
MongoDB collection) is passed in as explicit parameters or oracles.
-/

/-- A persisted faculty record, as built by `scrape_directory_page`
(fields `profile_path`, `profile_url`, `full_name`, `about_me`). -/
structure ProfileDoc where
  profile_path : String
  profile_url : String
  full_name : String
  about_me : String
  deriving Repr, DecidableEq

/-- Result shape of `scrape_profile`: a dict `{name, about}`, a bare string
from the fallback-selector path, or `None`. -/
inductive ScrapeResult where
  | structured (name about : String)
  | bare (text : String)
  | absent
  deriving Repr, DecidableEq

/-- A profile page, reduced to the structure `scrape_profile` inspects.
`bioTopLeftH1 = none` models the `bio-top-left` container being absent
(`h1_element` is then never assigned); `some none` models the container
present but with no `h1` inside; `some (some s)` gives the `h1` text. -/
structure ProfilePage where
  bioTopLeftH1 : Option (Option String)
  bioExpUls : Option (List String)
  bioBtmDivs : List (List String)
  altMatches : List (Option String)
  deriving Repr, DecidableEq

/-- The `Areas of Expertise` chunks pushed onto `combined_text`: for each
non-empty `ul` text of the `bio-exp` container, the three strings
`"Areas of Expertise: "`, the text, `"  "`. -/
def expertiseChunks : Option (List String) → List String
  | none => []
  | some uls =>
      uls.foldl (fun acc t =>
        if t ≠ "" then acc ++ ["Areas of Expertise: ", t, "  "] else acc) []

/-- The biography chunks pushed onto `combined_text`: for each `p` with
non-empty text inside each `bio-btm-left` div, the strings
`" "`, the text, `" "`. -/
def bioChunks (divs : List (List String)) : List String :=
  divs.foldl (fun acc ps =>
    acc ++ ps.foldl (fun a t => if t ≠ "" then a ++ [" ", t, " "] else a) []) []

/-- The loop over `alternative_selectors`: the first selector that matched
some element whose stripped text is non-empty yields that text. -/
def altLoop : List (Option String) → Option String
  | [] => none
  | none :: rest => altLoop rest
  | some t :: rest => if t ≠ "" then some t else altLoop rest

/-- `PaginatedScraper.scrape_profile`.  `fetch url = none` models
`get_page` returning `None` (or empty text).  When the `bio-top-left`
container is missing, the unguarded read of `h1_element` raises
`UnboundLocalError`; when the container is present without an `h1`,
`h1_element.get_text` raises `AttributeError`; both are swallowed by the
surrounding `except Exception` handler, which returns `None` — so in the
embedding both cases produce `absent` and the fallback selectors are
never consulted. -/
def scrapeProfile (fetch : String → Option ProfilePage) (url : String) :
    ScrapeResult :=
  match fetch url with
  | none => .absent
  | some page =>
    match page.bioTopLeftH1 with
    | none => .absent
    | some none => .absent
    | some (some name) =>
      let combined := expertiseChunks page.bioExpUls ++ bioChunks page.bioBtmDivs
      if combined ≠ [] then
        .structured name (String.join combined)
      else
        match altLoop page.altMatches with
        | some t => .bare t
        | none => .absent

/-! ## Persistence layer -/

/-- One backend attempt made by a save call: an `insert_many` against the
MongoDB collection, or a `save_to_file` write of `faculty_profiles.json`. -/
inductive StorageEvent where
  | db
  | file
  deriving Repr, DecidableEq

/-- The mutable storage-related state of a `PaginatedScraper` instance,
together with the two external sinks it can write to.  `fileData` is the
contents of `faculty_profiles.json` (`none` when the file does not exist);
`dbData` is the contents of the global MongoDB `profiles` collection. -/
structure ScraperState where
  useFileStorage : Bool
  existingProfiles : List ProfileDoc
  fileData : Option (List ProfileDoc)
  dbData : List ProfileDoc
  deriving Repr, DecidableEq

/-- `PaginatedScraper.load_from_file`: parse `faculty_profiles.json` when it
exists, else return `[]` (a read or parse error also yields `[]`). -/
def loadFromFile (fileData : Option (List ProfileDoc)) : List ProfileDoc :=
  match fileData with
  | some records => records
  | none => []

/-- `PaginatedScraper.__init__` (storage-related fields): the in-memory
`existing_profiles` list is loaded from the JSON file only when
`use_file_storage` is set; otherwise it starts empty. -/
def initScraper (useFileStorage : Bool) (fileData : Option (List ProfileDoc))
    (dbData : List ProfileDoc) : ScraperState :=
  { useFileStorage := useFileStorage
    existingProfiles := if useFileStorage then loadFromFile fileData else []
    fileData := fileData
    dbData := dbData }

/-- `PaginatedScraper.save_to_file`: extend `existing_profiles` with the new
records, then rewrite the whole JSON file with the extended list.
`fileOk = false` models the `open`/`json.dump` raising (caught and logged):
the in-memory list is already extended but the file is left unchanged. -/
def saveToFile (fileOk : Bool) (profilesData : List ProfileDoc)
    (st : ScraperState) : ScraperState × List StorageEvent :=
  let extended := st.existingProfiles ++ profilesData
  if fileOk then
    ({ st with existingProfiles := extended, fileData := some extended }, [.file])
  else
    ({ st with existingProfiles := extended }, [.file])

/-- `PaginatedScraper.save_profiles`.  `collExists` models the global
`collection is not None`; `dbOk` models whether this call's `insert_many`
succeeds.  On a database failure the instance flag `use_file_storage` is
set before retrying via `save_to_file`; the same happens when no collection
is available. -/
def saveProfiles (collExists dbOk fileOk : Bool)
    (profilesData : List ProfileDoc) (st : ScraperState) :
    ScraperState × List StorageEvent :=
  if profilesData = [] then
    (st, [])
  else if st.useFileStorage then
    saveToFile fileOk profilesData st
  else if collExists then
    if dbOk then
      ({ st with dbData := st.dbData ++ profilesData }, [.db])
    else
      let (st', evs) := saveToFile fileOk profilesData { st with useFileStorage := true }
      (st', .db :: evs)
  else
    saveToFile fileOk profilesData { st with useFileStorage := true }

/-- `PaginatedScraper.profile_exists`: scan the in-memory list in file mode,
do a point lookup in the collection otherwise, `False` when neither backend
is available. -/
def profileExists (collExists : Bool) (st : ScraperState) (path : String) :
    Bool :=
  if st.useFileStorage then
    st.existingProfiles.any (fun p => p.profile_path == path)
  else if collExists then
    st.dbData.any (fun p => p.profile_path == path)
  else
    false

/-! ## Directory pages and the crawl driver -/

/-- `needle` occurs as a contiguous substring of `haystack`
(the Python `'/people/' in href` test), on character lists. -/
def hasSubstrAux (needle : List Char) : List Char → Bool
  | [] => needle.isEmpty
  | c :: rest => needle.isPrefixOf (c :: rest) || hasSubstrAux needle rest

/-- String-level substring containment. -/
def strContains (haystack needle : String) : Bool :=
  hasSubstrAux needle.data haystack.data

/-- A directory page, reduced to the structure `scrape_directory_page`
inspects: the `href` attribute of each anchor (`none` when the attribute is
missing), and the already-resolved, de-duplicated output of
`find_pagination_links` on that page. -/
structure DirPage where
  anchorHrefs : List (Option String)
  paginationLinks : List String
  deriving Repr, DecidableEq

/-- The people-link filter of `scrape_directory_page`: keep each anchor
`href` that is present, truthy (non-empty) and contains `'/people/'`. -/
def peopleLinks (anchorHrefs : List (Option String)) : List String :=
  anchorHrefs.filterMap (fun h? =>
    match h? with
    | some h => if h ≠ "" && strContains h "/people/" then some h else none
    | none => none)

/-- The crawl's external world and configuration: the scraper's `base_url`,
the `urllib.parse.urljoin` resolver, the directory pages and profile pages
the site serves (`none` models a failed fetch), whether the global MongoDB
collection exists, and per-save-call oracles for the database and file
write outcomes. -/
structure CrawlEnv where
  baseUrl : String
  urljoin : String → String → String
  dirSite : String → Option DirPage
  profFetch : String → Option ProfilePage
  collExists : Bool
  dbOk : Nat → Bool
  fileOk : Nat → Bool

/-- The record `scrape_directory_page` builds for one people link: both
`profile_path` and `profile_url` are set to `urljoin(base_url, link)`, and
the name/about fields come from `scrape_profile`'s three result shapes. -/
def docForLink (env : CrawlEnv) (link : String) : ProfileDoc :=
  let person := env.urljoin env.baseUrl link
  match scrapeProfile env.profFetch person with
  | .structured n a =>
      { profile_path := person, profile_url := person, full_name := n, about_me := a }
  | .bare t =>
      { profile_path := person, profile_url := person, full_name := "", about_me := t }
  | .absent =>
      { profile_path := person, profile_url := person, full_name := "", about_me := "" }

/-- `PaginatedScraper.scrape_directory_page`: on a failed fetch return
`([], [])`; otherwise build one record per people link (appending it
unconditionally — the active loop never consults `profile_exists`) and
return them with the page's pagination links. -/
def scrapeDirectoryPage (env : CrawlEnv) (url : String) :
    List ProfileDoc × List String :=
  match env.dirSite url with
  | none => ([], [])
  | some page =>
      ((peopleLinks page.anchorHrefs).map (docForLink env), page.paginationLinks)

/-- The crawl driver's state in `scrape_all_pages`, together with the
scraper's storage state it mutates through `save_profiles`, a counter of
save calls (feeding the per-call outcome oracles) and a ghost log
recording every URL ever pushed onto `urls_to_visit`, in order. -/
structure CrawlState where
  visitedUrls : List String
  urlsToVisit : List String
  allProfiles : List ProfileDoc
  pageCount : Nat
  storage : ScraperState
  saveCalls : Nat
  enqueuedLog : List String
  deriving Repr, DecidableEq

/-- The initial driver state: `visited_urls = set()`,
`urls_to_visit = [start_url]`, no profiles, zero pages. -/
def initCrawl (startUrl : String) (storage : ScraperState) : CrawlState :=
  { visitedUrls := []
    urlsToVisit := [startUrl]
    allProfiles := []
    pageCount := 0
    storage := storage
    saveCalls := 0
    enqueuedLog := [startUrl] }

/-- The `while` guard's page-cap side: the loop stops once
`page_count < max_pages` fails (`max_pages is None` never stops it). -/
def capReached (maxPages : Option Nat) (pageCount : Nat) : Prop :=
  ∃ m, maxPages = some m ∧ m ≤ pageCount

instance capReachedDec (maxPages : Option Nat) (pageCount : Nat) :
    Decidable (capReached maxPages pageCount) := by
  unfold capReached
  cases maxPages with
  | none => exact .isFalse (by simp)
  | some m => exact decidable_of_iff (m ≤ pageCount) (by simp)

/-- The per-page enqueue loop of `scrape_all_pages`: append each pagination
link that is in neither `visited_urls` nor the current `urls_to_visit`;
the ghost log records exactly the appended links. -/
def enqueueLinks (visited : List String) :
    List String × List String → List String → List String × List String
  | (queue, log), [] => (queue, log)
  | (queue, log), l :: ls =>
      if l ∉ visited ∧ l ∉ queue then
        enqueueLinks visited (queue ++ [l], log ++ [l]) ls
      else
        enqueueLinks visited (queue, log) ls

/-- The body of one fresh-URL iteration of `scrape_all_pages`: mark the
URL visited, bump `page_count`, scrape the directory page, save and
accumulate its profiles if any (feeding the per-call outcome oracles),
and enqueue its pagination links. -/
def crawlProcess (env : CrawlEnv) (s : CrawlState) (currentUrl : String)
    (rest : List String) : CrawlState :=
  let visited' := currentUrl :: s.visitedUrls
  let res := scrapeDirectoryPage env currentUrl
  let profilesData := res.1
  let storage' :=
    if profilesData ≠ [] then
      (saveProfiles env.collExists (env.dbOk s.saveCalls) (env.fileOk s.saveCalls)
        profilesData s.storage).1
    else s.storage
  let saveCalls' := if profilesData ≠ [] then s.saveCalls + 1 else s.saveCalls
  let all' := if profilesData ≠ [] then s.allProfiles ++ profilesData else s.allProfiles
  let qe := enqueueLinks visited' (rest, s.enqueuedLog) res.2
  { visitedUrls := visited'
    urlsToVisit := qe.1
    allProfiles := all'
    pageCount := s.pageCount + 1
    storage := storage'
    saveCalls := saveCalls'
    enqueuedLog := qe.2 }

/-- One iteration of the `while` loop of `scrape_all_pages`.
`.inl s` means the loop terminates with final state `s` (the guard failed,
or the processed page yielded neither profiles nor pagination links and the
`break` fired); `.inr s` means the loop continues from `s` (including the
`continue` branch for an already-visited URL). -/
def crawlStep (env : CrawlEnv) (maxPages : Option Nat) (s : CrawlState) :
    CrawlState ⊕ CrawlState :=
  match s.urlsToVisit with
  | [] => .inl s
  | currentUrl :: rest =>
    if capReached maxPages s.pageCount then .inl s
    else if currentUrl ∈ s.visitedUrls then .inr { s with urlsToVisit := rest }
    else
      let s' := crawlProcess env s currentUrl rest
      if (scrapeDirectoryPage env currentUrl).1 = []
          ∧ (scrapeDirectoryPage env currentUrl).2 = [] then .inl s'
      else .inr s'

/-- The `while` loop of `scrape_all_pages`, driven by fuel (the source loop
terminates because every processed URL enters `visited_urls`; fuel makes
the recursion structural without changing any reachable behaviour). -/
def crawlLoop (env : CrawlEnv) (maxPages : Option Nat) :
    Nat → CrawlState → CrawlState
  | 0, s => s
  | fuel + 1, s =>
    match crawlStep env maxPages s with
    | .inl final => final
    | .inr s' => crawlLoop env maxPages fuel s'

/-- `PaginatedScraper.scrape_all_pages`: run the loop from the initial
state and return the final state (whose `allProfiles` is the returned
list). -/
def scrapeAllPages (env : CrawlEnv) (startUrl : String)
    (maxPages : Option Nat) (storage : ScraperState) (fuel : Nat) :
    CrawlState :=
  crawlLoop env maxPages fuel (initCrawl startUrl storage)

/-- Collapse the step outcome back to a state (the final state when the
loop terminated, the next state when it continues). -/
def stepState : CrawlState ⊕ CrawlState → CrawlState :=
  Sum.elim id id

/-- The frontier invariant of `scrape_all_pages`: the ghost enqueue log has
no duplicates, the pending queue has no duplicates, every logged URL is
either already visited or still pending, and every pending URL was
logged. -/
def CrawlInv (s : CrawlState) : Prop :=
  s.enqueuedLog.Nodup ∧ s.urlsToVisit.Nodup ∧
  (∀ u ∈ s.enqueuedLog, u ∈ s.visitedUrls ∨ u ∈ s.urlsToVisit) ∧
  (∀ u ∈ s.urlsToVisit, u ∈ s.enqueuedLog)

/-! ## Sanity checks on small concrete inputs -/

example :
    scrapeProfile (fun _ => some ⟨some (some "Zina Pichkar"), some ["Syntax"], [["Bio."]], []⟩) "u"
      = .structured "Zina Pichkar" "Areas of Expertise: Syntax   Bio. " := by
  decide

example :
    scrapeProfile (fun _ => some ⟨some (some "N"), none, [], [none, some "", some "Fallback bio"]⟩) "u"
      = .bare "Fallback bio" := by
  decide

example : peopleLinks [some "/people/a", some "/dept/x", none, some "", some "/people/b"]
    = ["/people/a", "/people/b"] := by decide

/-! ## Persistence-layer theorems -/

/-- C6: calling `save_profiles` with an empty record list performs no write
against any backend (no storage event) and leaves the scraper state —
including the `use_file_storage` backend-selection flag, the in-memory
list, the JSON file and the collection — unchanged. -/
theorem saveProfiles_empty_noop (collExists dbOk fileOk : Bool)
    (st : ScraperState) :
    saveProfiles collExists dbOk fileOk [] st = (st, []) := by
  simp [saveProfiles]

/-- C7: every successful file-backend save call rewrites the JSON file
wholesale: afterwards the file holds exactly the accumulated in-memory
list, the prior records followed by the newly saved ones, and the only
backend attempt was the single file write. -/
theorem saveProfiles_file_rewrites_whole (collExists dbOk : Bool)
    (profilesData : List ProfileDoc) (st : ScraperState)
    (hmode : st.useFileStorage = true) (hne : profilesData ≠ []) :
    (saveProfiles collExists dbOk true profilesData st).1.fileData
        = some (st.existingProfiles ++ profilesData) ∧
    (saveProfiles collExists dbOk true profilesData st).1.existingProfiles
        = st.existingProfiles ++ profilesData ∧
    (saveProfiles collExists dbOk true profilesData st).2 = [.file] := by
  simp [saveProfiles, saveToFile, hmode, hne]

theorem saveProfiles_file_rewrites_whole_witness :
    ({ useFileStorage := true
       existingProfiles := [⟨"/people/a", "u/people/a", "A", "bio a"⟩]
       fileData := some [⟨"/people/a", "u/people/a", "A", "bio a"⟩]
       dbData := [] } : ScraperState).useFileStorage = true ∧
    ([⟨"/people/b", "u/people/b", "B", "bio b"⟩] : List ProfileDoc) ≠ [] ∧
    (saveProfiles false false true [⟨"/people/b", "u/people/b", "B", "bio b"⟩]
        { useFileStorage := true
          existingProfiles := [⟨"/people/a", "u/people/a", "A", "bio a"⟩]
          fileData := some [⟨"/people/a", "u/people/a", "A", "bio a"⟩]
          dbData := [] }).1.fileData
      = some [⟨"/people/a", "u/people/a", "A", "bio a"⟩,
              ⟨"/people/b", "u/people/b", "B", "bio b"⟩] :=
  ⟨rfl, by decide,
    (saveProfiles_file_rewrites_whole false false
      [⟨"/people/b", "u/people/b", "B", "bio b"⟩] _ rfl (by decide)).1⟩

/-- C2: a database-backend save call whose `insert_many` fails retries the
same records exactly once against the file backend (the event trace is the
failed database attempt followed by one file write, and the retried records
are appended to the in-memory list), setting `use_file_storage`; and once
the instance is in file mode every save call leaves the flag set and never
attempts the database backend, whatever the collection, database and file
outcomes are — the downgrade is one-directional and permanent. -/
theorem saveProfiles_db_failure_downgrade_sticky :
    (∀ (fileOk : Bool) (profilesData : List ProfileDoc) (st : ScraperState),
      st.useFileStorage = false → profilesData ≠ [] →
      (saveProfiles true false fileOk profilesData st).2 = [.db, .file] ∧
      (saveProfiles true false fileOk profilesData st).1.useFileStorage = true ∧
      (saveProfiles true false fileOk profilesData st).1.existingProfiles
          = st.existingProfiles ++ profilesData) ∧
    (∀ (collExists dbOk fileOk : Bool) (profilesData : List ProfileDoc)
        (st : ScraperState),
      st.useFileStorage = true →
      StorageEvent.db ∉ (saveProfiles collExists dbOk fileOk profilesData st).2 ∧
      (saveProfiles collExists dbOk fileOk profilesData st).1.useFileStorage
          = true) := by
  constructor
  · intro fileOk profilesData st hmode hne
    cases fileOk <;> simp [saveProfiles, saveToFile, hmode, hne]
  · intro collExists dbOk fileOk profilesData st hmode
    by_cases hne : profilesData = []
    · simp [saveProfiles, hne, hmode]
    · cases fileOk <;> simp [saveProfiles, saveToFile, hmode, hne]

theorem saveProfiles_db_failure_downgrade_sticky_witness :
    (({ useFileStorage := false, existingProfiles := [],
        fileData := none, dbData := [] } : ScraperState).useFileStorage = false) ∧
    (saveProfiles true false true [⟨"/people/a", "u/people/a", "A", "bio"⟩]
        { useFileStorage := false, existingProfiles := [],
          fileData := none, dbData := [] }).2 = [.db, .file] :=
  ⟨rfl,
    (saveProfiles_db_failure_downgrade_sticky.1 true
      [⟨"/people/a", "u/people/a", "A", "bio"⟩]
      { useFileStorage := false, existingProfiles := [],
        fileData := none, dbData := [] } rfl (by decide)).1⟩

/-- C9: a scraper constructed for the database backend
(`use_file_storage = False`) starts with an empty in-memory
`existing_profiles` list, never reading `faculty_profiles.json`; hence
after a mid-run downgrade caused by a failed database write, the very next
file save rewrites the JSON file to exactly the records of that save call,
discarding whatever an earlier run had persisted there. -/
theorem initScraper_db_mode_discards_file (fileData : Option (List ProfileDoc))
    (dbData profilesData : List ProfileDoc)
    (hne : profilesData ≠ []) :
    (initScraper false fileData dbData).existingProfiles = [] ∧
    (saveProfiles true false true profilesData
        (initScraper false fileData dbData)).1.fileData = some profilesData := by
  refine ⟨by simp [initScraper], ?_⟩
  simp [saveProfiles, saveToFile, initScraper, hne]

theorem initScraper_db_mode_discards_file_witness :
    ([⟨"/people/b", "u/people/b", "B", "bio b"⟩] : List ProfileDoc) ≠ [] ∧
    (saveProfiles true false true [⟨"/people/b", "u/people/b", "B", "bio b"⟩]
        (initScraper false (some [⟨"/people/a", "u/people/a", "A", "bio a"⟩]) [])).1.fileData
      = some [⟨"/people/b", "u/people/b", "B", "bio b"⟩] :=
  ⟨by decide,
    (initScraper_db_mode_discards_file
      (some [⟨"/people/a", "u/people/a", "A", "bio a"⟩]) []
      [⟨"/people/b", "u/people/b", "B", "bio b"⟩] (by decide)).2⟩

/-! ## Profile-parser theorems -/

theorem altLoop_all_empty_eq_none (alts : List (Option String))
    (h : ∀ o ∈ alts, o.getD "" = "") : altLoop alts = none := by
  induction alts with
  | nil => rfl
  | cons hd tl ih =>
    cases hd with
    | none => exact ih (fun o ho => h o (List.mem_cons_of_mem _ ho))
    | some t =>
      have ht : t = "" := h (some t) (List.mem_cons_self _ _)
      simp [altLoop, ht]
      exact ih (fun o ho => h o (List.mem_cons_of_mem _ ho))

theorem foldl_expertise_all_empty (uls : List String) (acc : List String)
    (h : ∀ t ∈ uls, t = "") :
    uls.foldl (fun acc t =>
      if t ≠ "" then acc ++ ["Areas of Expertise: ", t, "  "] else acc) acc = acc := by
  induction uls generalizing acc with
  | nil => rfl
  | cons hd tl ih =>
    have hh : hd = "" := h hd (List.mem_cons_self _ _)
    rw [List.foldl_cons, if_neg (by simp [hh])]
    exact ih acc (fun t ht => h t (List.mem_cons_of_mem _ ht))

theorem expertiseChunks_all_empty (o : Option (List String))
    (h : ∀ t ∈ o.getD [], t = "") : expertiseChunks o = [] := by
  cases o with
  | none => rfl
  | some uls => exact foldl_expertise_all_empty uls [] (by simpa using h)

theorem foldl_bio_inner_all_empty (ps : List String) (a : List String)
    (h : ∀ t ∈ ps, t = "") :
    ps.foldl (fun a t => if t ≠ "" then a ++ [" ", t, " "] else a) a = a := by
  induction ps generalizing a with
  | nil => rfl
  | cons hd tl ih =>
    have hh : hd = "" := h hd (List.mem_cons_self _ _)
    rw [List.foldl_cons, if_neg (by simp [hh])]
    exact ih a (fun t ht => h t (List.mem_cons_of_mem _ ht))

theorem bioChunks_all_empty (divs : List (List String))
    (h : ∀ ps ∈ divs, ∀ t ∈ ps, t = "") : bioChunks divs = [] := by
  unfold bioChunks
  induction divs with
  | nil => rfl
  | cons hd tl ih =>
    rw [List.foldl_cons, List.nil_append,
      foldl_bio_inner_all_empty hd [] (fun t ht => h hd (List.mem_cons_self _ _) t ht)]
    exact ih (fun ps hps t ht => h ps (List.mem_cons_of_mem _ hps) t ht)

/-- C5 counterexample: a page that lacks the primary `bio-btm-left`
biography container entirely and on which every fallback selector matches
nothing, but whose `bio-exp` expertise container has text.  The claim says
`parse_profile` returns absent on it; the code returns the structured
result built from the expertise text alone. -/
theorem scrapeProfile_absent_cex :
    scrapeProfile
      (fun _ => some ⟨some (some "Dr. X"), some ["Phonology"], [],
        [none, none, none, none, none, none]⟩) "u"
      = .structured "Dr. X" "Areas of Expertise: Phonology  " := by
  decide

/-- C5 amended: for every profile page whose primary biography container
yields no non-empty paragraph text, whose areas-of-expertise container
yields no non-empty text, and on which no fallback selector matches
non-empty text, `scrape_profile` returns absent — and it never raises to
its caller: the unguarded `h1_element` read for a header container without
a heading (and the unbound read when the container is missing) raises
inside the method's own `except Exception` handler, which also returns
`None`. -/
theorem scrapeProfile_no_content_absent (fetch : String → Option ProfilePage)
    (url : String) (page : ProfilePage)
    (hf : fetch url = some page)
    (hexp : ∀ t ∈ page.bioExpUls.getD [], t = "")
    (hbio : ∀ ps ∈ page.bioBtmDivs, ∀ t ∈ ps, t = "")
    (halt : ∀ o ∈ page.altMatches, o.getD "" = "") :
    scrapeProfile fetch url = .absent := by
  have he := expertiseChunks_all_empty page.bioExpUls hexp
  have hb := bioChunks_all_empty page.bioBtmDivs hbio
  have ha := altLoop_all_empty_eq_none page.altMatches halt
  cases hh : page.bioTopLeftH1 with
  | none => simp [scrapeProfile, hf, hh]
  | some o =>
    cases o with
    | none => simp [scrapeProfile, hf, hh]
    | some name => simp [scrapeProfile, hf, hh, he, hb, ha]

theorem scrapeProfile_no_content_absent_witness :
    ((fun _ => some (⟨some none, some [""], [["", ""]], [none, some ""]⟩ : ProfilePage)) :
        String → Option ProfilePage) "u"
        = some ⟨some none, some [""], [["", ""]], [none, some ""]⟩ ∧
    scrapeProfile
      (fun _ => some ⟨some none, some [""], [["", ""]], [none, some ""]⟩) "u" = .absent :=
  ⟨rfl,
    scrapeProfile_no_content_absent _ "u"
      ⟨some none, some [""], [["", ""]], [none, some ""]⟩ rfl
      (by decide) (by decide) (by decide)⟩

/-- C4 counterexample: a page whose primary containers are all absent
(no `bio-top-left` header, no `bio-exp`, no `bio-btm-left` divs) and on
which a fallback selector matches non-empty text.  The claim says the
parser falls through and returns the bare fallback string; the code's
unguarded `h1_element` read raises first, the handler returns `None`, and
the fallback list is never consulted — the second conjunct exhibits the
non-empty fallback match the claim relies on. -/
theorem scrapeProfile_fallback_cex :
    scrapeProfile (fun _ => some ⟨none, none, [], [some "Fallback biography"]⟩) "u"
        = .absent ∧
    altLoop [some "Fallback biography"] = some "Fallback biography" := by
  decide

/-- C4 amended: a profile page falls through to the alternative
CSS-selector list and returns a bare string exactly when the header
container *and* its heading are present (so the unguarded name read
succeeds) while the primary biography and expertise regions contribute no
text; the first fallback selector matching non-empty text supplies the
bare-string result.  When the header container or its heading is missing,
the method instead returns `None` via its exception handler, without
consulting the fallback selectors. -/
theorem scrapeProfile_fallback_amended (fetch : String → Option ProfilePage)
    (url : String) (page : ProfilePage) (name t : String)
    (hf : fetch url = some page)
    (hname : page.bioTopLeftH1 = some (some name))
    (hcomb : expertiseChunks page.bioExpUls ++ bioChunks page.bioBtmDivs = [])
    (halt : altLoop page.altMatches = some t) :
    scrapeProfile fetch url = .bare t := by
  simp [scrapeProfile, hf, hname, hcomb, halt]

theorem scrapeProfile_fallback_amended_witness :
    ((fun _ => some (⟨some (some "N"), none, [],
        [none, some "", some "Fallback biography"]⟩ : ProfilePage)) :
          String → Option ProfilePage) "u"
        = some ⟨some (some "N"), none, [], [none, some "", some "Fallback biography"]⟩ ∧
    scrapeProfile
      (fun _ => some ⟨some (some "N"), none, [],
        [none, some "", some "Fallback biography"]⟩) "u" = .bare "Fallback biography" :=
  ⟨rfl,
    scrapeProfile_fallback_amended _ "u"
      ⟨some (some "N"), none, [], [none, some "", some "Fallback biography"]⟩
      "N" "Fallback biography" rfl rfl (by decide) (by decide)⟩

/-! ## Directory-page theorems -/

theorem docForLink_path_eq_join (env : CrawlEnv) (link : String) :
    (docForLink env link).profile_path = env.urljoin env.baseUrl link := by
  cases h : scrapeProfile env.profFetch (env.urljoin env.baseUrl link) <;>
    simp [docForLink, h]

theorem docForLink_path_eq_url (env : CrawlEnv) (link : String) :
    (docForLink env link).profile_path = (docForLink env link).profile_url := by
  cases h : scrapeProfile env.profFetch (env.urljoin env.baseUrl link) <;>
    simp [docForLink, h]

theorem docForLink_url_eq_join (env : CrawlEnv) (link : String) :
    (docForLink env link).profile_url = env.urljoin env.baseUrl link := by
  cases h : scrapeProfile env.profFetch (env.urljoin env.baseUrl link) <;>
    simp [docForLink, h]

theorem docForLink_absent_fields (env : CrawlEnv) (link : String)
    (h : scrapeProfile env.profFetch (env.urljoin env.baseUrl link) = .absent) :
    (docForLink env link).full_name = "" ∧ (docForLink env link).about_me = "" := by
  simp [docForLink, h]

/-- C10: on a successfully fetched directory page, `scrape_directory_page`
appends one record per people link, unconditionally — in order, with
`profile_path` equal to `urljoin(base_url, link)` — so each record's
`profile_path` equals its `profile_url`, and a people link whose profile
scrape came back absent still yields a record, with empty `full_name` and
empty `about_me`. -/
theorem scrapeDirectoryPage_builds_all_records (env : CrawlEnv) (url : String)
    (page : DirPage) (hpage : env.dirSite url = some page) :
    (scrapeDirectoryPage env url).1.map ProfileDoc.profile_path
        = (peopleLinks page.anchorHrefs).map (env.urljoin env.baseUrl) ∧
    (∀ d ∈ (scrapeDirectoryPage env url).1, d.profile_path = d.profile_url) ∧
    (∀ d ∈ (scrapeDirectoryPage env url).1,
      scrapeProfile env.profFetch d.profile_url = .absent →
      d.full_name = "" ∧ d.about_me = "") := by
  refine ⟨?_, ?_, ?_⟩
  · simp only [scrapeDirectoryPage, hpage, List.map_map]
    exact List.map_congr_left (fun link _ => docForLink_path_eq_join env link)
  · intro d hd
    simp only [scrapeDirectoryPage, hpage, List.mem_map] at hd
    obtain ⟨link, -, rfl⟩ := hd
    exact docForLink_path_eq_url env link
  · intro d hd habs
    simp only [scrapeDirectoryPage, hpage, List.mem_map] at hd
    obtain ⟨link, -, rfl⟩ := hd
    rw [docForLink_url_eq_join] at habs
    exact docForLink_absent_fields env link habs

theorem scrapeDirectoryPage_builds_all_records_witness :
    (({ baseUrl := "https://site"
        urljoin := fun b l => b ++ l
        dirSite := fun u =>
          if u = "https://site/people" then
            some { anchorHrefs := [some "/people/a", some "/dept/x", none]
                   paginationLinks := [] }
          else none
        profFetch := fun _ => none
        collExists := false
        dbOk := fun _ => true
        fileOk := fun _ => true } : CrawlEnv).dirSite "https://site/people"
      = some { anchorHrefs := [some "/people/a", some "/dept/x", none]
               paginationLinks := [] }) ∧
    (scrapeDirectoryPage
        { baseUrl := "https://site"
          urljoin := fun b l => b ++ l
          dirSite := fun u =>
            if u = "https://site/people" then
              some { anchorHrefs := [some "/people/a", some "/dept/x", none]
                     paginationLinks := [] }
            else none
          profFetch := fun _ => none
          collExists := false
          dbOk := fun _ => true
          fileOk := fun _ => true } "https://site/people").1.map ProfileDoc.profile_path
      = ["https://site/people/a"] :=
  ⟨by decide,
    by
      have h := (scrapeDirectoryPage_builds_all_records
        { baseUrl := "https://site"
          urljoin := fun b l => b ++ l
          dirSite := fun u =>
            if u = "https://site/people" then
              some { anchorHrefs := [some "/people/a", some "/dept/x", none]
                     paginationLinks := [] }
            else none
          profFetch := fun _ => none
          collExists := false
          dbOk := fun _ => true
          fileOk := fun _ => true } "https://site/people"
        { anchorHrefs := [some "/people/a", some "/dept/x", none]
          paginationLinks := [] } (by decide)).1
      rw [h]
      decide⟩

/-! ## Crawl-driver theorems -/

theorem crawlStep_nil (env : CrawlEnv) (maxPages : Option Nat) (s : CrawlState)
    (h : s.urlsToVisit = []) : crawlStep env maxPages s = .inl s := by
  unfold crawlStep
  rw [h]

theorem crawlStep_cap (env : CrawlEnv) (maxPages : Option Nat) (s : CrawlState)
    (cur : String) (rest : List String) (h : s.urlsToVisit = cur :: rest)
    (hcap : capReached maxPages s.pageCount) :
    crawlStep env maxPages s = .inl s := by
  unfold crawlStep
  rw [h]
  exact if_pos hcap

theorem crawlStep_skip (env : CrawlEnv) (maxPages : Option Nat) (s : CrawlState)
    (cur : String) (rest : List String) (h : s.urlsToVisit = cur :: rest)
    (hcap : ¬ capReached maxPages s.pageCount) (hvis : cur ∈ s.visitedUrls) :
    crawlStep env maxPages s = .inr { s with urlsToVisit := rest } := by
  unfold crawlStep
  rw [h]
  exact (if_neg hcap).trans (if_pos hvis)

theorem crawlStep_fresh (env : CrawlEnv) (maxPages : Option Nat) (s : CrawlState)
    (cur : String) (rest : List String) (h : s.urlsToVisit = cur :: rest)
    (hcap : ¬ capReached maxPages s.pageCount) (hvis : cur ∉ s.visitedUrls) :
    crawlStep env maxPages s =
      if (scrapeDirectoryPage env cur).1 = [] ∧ (scrapeDirectoryPage env cur).2 = []
      then .inl (crawlProcess env s cur rest)
      else .inr (crawlProcess env s cur rest) := by
  unfold crawlStep
  rw [h]
  exact (if_neg hcap).trans (if_neg hvis)

theorem crawlProcess_empty_page (env : CrawlEnv) (s : CrawlState)
    (cur : String) (rest : List String)
    (hpage : scrapeDirectoryPage env cur = ([], [])) :
    crawlProcess env s cur rest =
      { visitedUrls := cur :: s.visitedUrls
        urlsToVisit := rest
        allProfiles := s.allProfiles
        pageCount := s.pageCount + 1
        storage := s.storage
        saveCalls := s.saveCalls
        enqueuedLog := s.enqueuedLog } := by
  simp [crawlProcess, hpage, enqueueLinks]

/-- C3: the driver loop of `scrape_all_pages` ends exactly when the pending
queue is empty, the optional page cap has been reached, or the URL about to
be processed is fresh and its directory page yields neither profiles nor
pagination links; and in that doubly-empty case the loop terminates
immediately after processing that page — the final state records the page
as visited and counted, with the rest of the queue left unconsumed and no
profiles added. -/
theorem crawlStep_halts_iff (env : CrawlEnv) (maxPages : Option Nat)
    (s : CrawlState) :
    ((∃ final, crawlStep env maxPages s = .inl final) ↔
      (s.urlsToVisit = [] ∨ capReached maxPages s.pageCount ∨
        (∃ cur rest, s.urlsToVisit = cur :: rest ∧ cur ∉ s.visitedUrls ∧
          scrapeDirectoryPage env cur = ([], [])))) ∧
    (∀ cur rest, s.urlsToVisit = cur :: rest →
      ¬ capReached maxPages s.pageCount → cur ∉ s.visitedUrls →
      scrapeDirectoryPage env cur = ([], []) →
      crawlStep env maxPages s = .inl
        { visitedUrls := cur :: s.visitedUrls
          urlsToVisit := rest
          allProfiles := s.allProfiles
          pageCount := s.pageCount + 1
          storage := s.storage
          saveCalls := s.saveCalls
          enqueuedLog := s.enqueuedLog }) := by
  have hdone : ∀ cur rest, s.urlsToVisit = cur :: rest →
      ¬ capReached maxPages s.pageCount → cur ∉ s.visitedUrls →
      scrapeDirectoryPage env cur = ([], []) →
      crawlStep env maxPages s = .inl
        { visitedUrls := cur :: s.visitedUrls
          urlsToVisit := rest
          allProfiles := s.allProfiles
          pageCount := s.pageCount + 1
          storage := s.storage
          saveCalls := s.saveCalls
          enqueuedLog := s.enqueuedLog } := by
    intro cur rest hq hcap hvis hpage
    rw [crawlStep_fresh env maxPages s cur rest hq hcap hvis,
      if_pos ⟨by rw [hpage], by rw [hpage]⟩,
      crawlProcess_empty_page env s cur rest hpage]
  refine ⟨⟨?_, ?_⟩, hdone⟩
  · rintro ⟨final, hfin⟩
    cases hq : s.urlsToVisit with
    | nil => exact .inl rfl
    | cons cur rest =>
      by_cases hcap : capReached maxPages s.pageCount
      · exact .inr (.inl hcap)
      · by_cases hvis : cur ∈ s.visitedUrls
        · rw [crawlStep_skip env maxPages s cur rest hq hcap hvis] at hfin
          exact absurd hfin (by simp)
        · by_cases hpage : (scrapeDirectoryPage env cur).1 = []
              ∧ (scrapeDirectoryPage env cur).2 = []
          · exact .inr (.inr ⟨cur, rest, rfl, hvis, Prod.ext_iff.2 hpage⟩)
          · rw [crawlStep_fresh env maxPages s cur rest hq hcap hvis,
              if_neg hpage] at hfin
            exact absurd hfin (by simp)
  · intro h
    rcases h with hq | hcap | ⟨cur, rest, hq, hvis, hpage⟩
    · exact ⟨s, crawlStep_nil env maxPages s hq⟩
    · cases hq : s.urlsToVisit with
      | nil => exact ⟨s, crawlStep_nil env maxPages s hq⟩
      | cons cur rest => exact ⟨s, crawlStep_cap env maxPages s cur rest hq hcap⟩
    · by_cases hcap : capReached maxPages s.pageCount
      · exact ⟨s, crawlStep_cap env maxPages s cur rest hq hcap⟩
      · exact ⟨_, hdone cur rest hq hcap hvis hpage⟩

theorem crawlStep_halts_iff_witness :
    crawlStep
        { baseUrl := "https://site"
          urljoin := fun b l => b ++ l
          dirSite := fun _ => some { anchorHrefs := [], paginationLinks := [] }
          profFetch := fun _ => none
          collExists := false
          dbOk := fun _ => true
          fileOk := fun _ => true }
        (some 50) (initCrawl "https://site/people" (initScraper true none []))
      = .inl
        { visitedUrls := ["https://site/people"]
          urlsToVisit := []
          allProfiles := []
          pageCount := 1
          storage := initScraper true none []
          saveCalls := 0
          enqueuedLog := ["https://site/people"] } :=
  (crawlStep_halts_iff
      { baseUrl := "https://site"
        urljoin := fun b l => b ++ l
        dirSite := fun _ => some { anchorHrefs := [], paginationLinks := [] }
        profFetch := fun _ => none
        collExists := false
        dbOk := fun _ => true
        fileOk := fun _ => true }
      (some 50) (initCrawl "https://site/people" (initScraper true none []))).2
    "https://site/people" [] rfl (by decide) (by decide) (by decide)

theorem enqueueLinks_inv (visited : List String) (ls : List String) :
    ∀ (q log : List String), log.Nodup → q.Nodup →
      (∀ u ∈ log, u ∈ visited ∨ u ∈ q) → (∀ u ∈ q, u ∈ log) →
      ((enqueueLinks visited (q, log) ls).2.Nodup ∧
       (enqueueLinks visited (q, log) ls).1.Nodup ∧
       (∀ u ∈ (enqueueLinks visited (q, log) ls).2,
          u ∈ visited ∨ u ∈ (enqueueLinks visited (q, log) ls).1) ∧
       (∀ u ∈ (enqueueLinks visited (q, log) ls).1,
          u ∈ (enqueueLinks visited (q, log) ls).2)) := by
  induction ls with
  | nil =>
    intro q log hlog hq hsub hql
    exact ⟨hlog, hq, hsub, hql⟩
  | cons l tl ih =>
    intro q log hlog hq hsub hql
    by_cases hc : l ∉ visited ∧ l ∉ q
    · rw [enqueueLinks, if_pos hc]
      have hlnotlog : l ∉ log := fun hmem => (hsub l hmem).elim hc.1 hc.2
      refine ih (q ++ [l]) (log ++ [l]) ?_ ?_ ?_ ?_
      · simp [List.nodup_append, hlog, hlnotlog]
      · simp [List.nodup_append, hq, hc.2]
      · intro u hu
        rcases List.mem_append.1 hu with h1 | h1
        · rcases hsub u h1 with h2 | h2
          · exact .inl h2
          · exact .inr (List.mem_append.2 (.inl h2))
        · exact .inr (List.mem_append.2 (.inr h1))
      · intro u hu
        rcases List.mem_append.1 hu with h1 | h1
        · exact List.mem_append.2 (.inl (hql u h1))
        · exact List.mem_append.2 (.inr h1)
    · rw [enqueueLinks, if_neg hc]
      exact ih q log hlog hq hsub hql

theorem crawlProcess_inv (env : CrawlEnv) (s : CrawlState)
    (cur : String) (rest : List String) (h : s.urlsToVisit = cur :: rest)
    (hinv : CrawlInv s) : CrawlInv (crawlProcess env s cur rest) := by
  obtain ⟨hlog, hq, hsub, hql⟩ := hinv
  rw [h] at hq hsub hql
  have hq' : rest.Nodup := (List.nodup_cons.1 hq).2
  have hsub' : ∀ u ∈ s.enqueuedLog, u ∈ (cur :: s.visitedUrls) ∨ u ∈ rest := by
    intro u hu
    rcases hsub u hu with h1 | h1
    · exact .inl (List.mem_cons_of_mem _ h1)
    · rcases List.mem_cons.1 h1 with rfl | h2
      · exact .inl (List.mem_cons_self _ _)
      · exact .inr h2
  have hql' : ∀ u ∈ rest, u ∈ s.enqueuedLog :=
    fun u hu => hql u (List.mem_cons_of_mem _ hu)
  have hmain := enqueueLinks_inv (cur :: s.visitedUrls)
    (scrapeDirectoryPage env cur).2 rest s.enqueuedLog hlog hq' hsub' hql'
  exact ⟨hmain.1, hmain.2.1, hmain.2.2.1, hmain.2.2.2⟩

theorem crawlStep_inv (env : CrawlEnv) (maxPages : Option Nat) (s : CrawlState)
    (hinv : CrawlInv s) : CrawlInv (stepState (crawlStep env maxPages s)) := by
  cases hq : s.urlsToVisit with
  | nil =>
    rw [crawlStep_nil env maxPages s hq]
    exact hinv
  | cons cur rest =>
    by_cases hcap : capReached maxPages s.pageCount
    · rw [crawlStep_cap env maxPages s cur rest hq hcap]
      exact hinv
    · by_cases hvis : cur ∈ s.visitedUrls
      · rw [crawlStep_skip env maxPages s cur rest hq hcap hvis]
        obtain ⟨hlog, hqn, hsub, hql⟩ := hinv
        rw [hq] at hqn hsub hql
        refine ⟨hlog, (List.nodup_cons.1 hqn).2, ?_, ?_⟩
        · intro u hu
          rcases hsub u hu with h1 | h1
          · exact .inl h1
          · rcases List.mem_cons.1 h1 with rfl | h2
            · exact .inl hvis
            · exact .inr h2
        · intro u hu
          exact hql u (List.mem_cons_of_mem _ hu)
      · rw [crawlStep_fresh env maxPages s cur rest hq hcap hvis]
        by_cases hpage : (scrapeDirectoryPage env cur).1 = []
            ∧ (scrapeDirectoryPage env cur).2 = []
        · rw [if_pos hpage]
          exact crawlProcess_inv env s cur rest hq hinv
        · rw [if_neg hpage]
          exact crawlProcess_inv env s cur rest hq hinv

theorem crawlLoop_inv (env : CrawlEnv) (maxPages : Option Nat) (fuel : Nat)
    (s : CrawlState) (hinv : CrawlInv s) :
    CrawlInv (crawlLoop env maxPages fuel s) := by
  induction fuel generalizing s with
  | zero => exact hinv
  | succ n ih =>
    have hstep := crawlStep_inv env maxPages s hinv
    rw [crawlLoop]
    cases hc : crawlStep env maxPages s with
    | inl final =>
      rw [hc] at hstep
      exact hstep
    | inr s' =>
      rw [hc] at hstep
      exact ih s' hstep

/-- C8: over any full run of `scrape_all_pages`, every URL is pushed onto
`urls_to_visit` at most once — the ghost log of all enqueue operations
(the initial start URL plus each pagination link appended after passing
the checks against the visited set and the pending queue) contains no
duplicates — and consequently the pending queue never holds a URL
twice. -/
theorem crawl_enqueues_each_url_at_most_once (env : CrawlEnv)
    (maxPages : Option Nat) (startUrl : String) (storage : ScraperState)
    (fuel : Nat) :
    (scrapeAllPages env startUrl maxPages storage fuel).enqueuedLog.Nodup ∧
    (scrapeAllPages env startUrl maxPages storage fuel).urlsToVisit.Nodup := by
  have hinit : CrawlInv (initCrawl startUrl storage) := by
    refine ⟨List.nodup_singleton _, List.nodup_singleton _, ?_, ?_⟩ <;>
      simp [initCrawl]
  have hfin := crawlLoop_inv env maxPages fuel _ hinit
  exact ⟨hfin.1, hfin.2.1⟩

/-- C1 (failing-input evaluation): with the file backend and
`faculty_profiles.json` already holding a record whose `profile_path` is
`https://site/people/a`, a crawl of a directory page whose only people
link resolves to that same path re-inserts the record: `profile_exists`
reports the path as present at the start of the run, yet after the run
the accumulated list — and the rewritten JSON file — hold the record
twice, because the active loop of `scrape_directory_page` never calls
`profile_exists`. -/
theorem crawl_reinserts_existing_profile :
    profileExists false
        (initScraper true
          (some [{ profile_path := "https://site/people/a"
                   profile_url := "https://site/people/a"
                   full_name := "", about_me := "" }]) [])
        "https://site/people/a" = true ∧
    (scrapeAllPages
        { baseUrl := "https://site"
          urljoin := fun b l => b ++ l
          dirSite := fun u =>
            if u = "https://site/people" then
              some { anchorHrefs := [some "/people/a"], paginationLinks := [] }
            else none
          profFetch := fun _ => none
          collExists := false
          dbOk := fun _ => true
          fileOk := fun _ => true }
        "https://site/people" (some 50)
        (initScraper true
          (some [{ profile_path := "https://site/people/a"
                   profile_url := "https://site/people/a"
                   full_name := "", about_me := "" }]) [])
        3).storage.fileData
      = some [{ profile_path := "https://site/people/a"
                profile_url := "https://site/people/a"
                full_name := "", about_me := "" },
              { profile_path := "https://site/people/a"
                profile_url := "https://site/people/a"
                full_name := "", about_me := "" }] := by
  exact ⟨by decide, by decide⟩
